import Mathlib

/-!
Verification of the object-reference pickling scheme of `src/utils/utils.py`
(`to_pickle` / `from_pickle`, lines 514-608).

Shallow embedding notes:

* A Python value flowing through the two functions is modelled by `Value`:
  strings, ints, floats (no arithmetic is ever performed on them, so the
  payload is modelled as `Rat`), booleans, `None`, tuples, lists, dicts
  (as ordered association lists; both functions preserve order, so
  structural equality refines Python `==`), and objects.
* An object (`Obj`) carries what the code inspects: its class name
  (`item.__class__.__name__`), an optional integer `id` attribute
  (`Option.none` models `hasattr(item, "id")` being false; Django primary
  keys are modelled as integers), an optional `dbobj` attribute and an
  optional `typeclass` attribute (`Option.none` models the attribute being
  absent or falsy, which `_TO_DBOBJ` / `_TO_TYPECLASS` treat alike).
* The external Django collaborators are modelled by `Env`:
  `fromModelMap` models `_FROM_MODEL_MAP`, `dict((c.model, c.natural_key()))`
  over all content types, with the natural key abstracted to a `String`;
  `toModelMap` models `_TO_MODEL_MAP`, `dict((c.natural_key(), c.model_class()))`;
  a model class (`ModelClass`) is its manager table: `objects.get(id=n)`
  is association lookup, raising `DoesNotExist` when the id is absent.
  Both Python dicts are defaultdict(str): a missing key yields `""`.
* Exceptions are modelled with `Except`; `pickle.dumps`/`pickle.loads` are
  modelled by the `Wire` wrapper (the serializer contract of the spec:
  loads inverts dumps, and shape distinctions are preserved exactly).
* The `transaction.commit()` call and every `objects.get` query are recorded
  in an event trace, so that the ordering between the consistency barrier
  and entity fetches is provable.
-/

/-- Model of a Python object as seen by the pickling helpers: a class name,
an optional integer `id` attribute, an optional (truthy) `dbobj` attribute
and an optional (truthy) `typeclass` attribute. -/
inductive Obj where
  | mk (className : String) (objId : Option Int) (dbobj : Option Obj) (typeclass : Option Obj)

/-- Class name of an object (`item.__class__.__name__`). -/
def Obj.className : Obj → String
  | .mk c _ _ _ => c

/-- The `id` attribute of an object; `Option.none` models `hasattr(item, "id")`
being false. -/
def Obj.objId : Obj → Option Int
  | .mk _ i _ _ => i

/-- The `dbobj` attribute; `Option.none` models the attribute being absent
or falsy. -/
def Obj.dbobj : Obj → Option Obj
  | .mk _ _ d _ => d

/-- The `typeclass` attribute; `Option.none` models the attribute being
absent or falsy. -/
def Obj.typeclass : Obj → Option Obj
  | .mk _ _ _ t => t

mutual

def Obj.decEq : (a b : Obj) → Decidable (a = b)
  | .mk c1 i1 d1 t1, .mk c2 i2 d2 t2 =>
    if hc : c1 = c2 then
      if hi : i1 = i2 then
        match Obj.decEqOpt d1 d2 with
        | isTrue hd =>
          match Obj.decEqOpt t1 t2 with
          | isTrue ht => isTrue (by rw [hc, hi, hd, ht])
          | isFalse ht => isFalse (fun he => ht (by cases he; rfl))
        | isFalse hd => isFalse (fun he => hd (by cases he; rfl))
      else isFalse (fun he => hi (by cases he; rfl))
    else isFalse (fun he => hc (by cases he; rfl))

def Obj.decEqOpt : (a b : Option Obj) → Decidable (a = b)
  | Option.none, Option.none => isTrue rfl
  | Option.none, Option.some _ => isFalse (fun he => by cases he)
  | Option.some _, Option.none => isFalse (fun he => by cases he)
  | Option.some a, Option.some b =>
    match Obj.decEq a b with
    | isTrue h => isTrue (by rw [h])
    | isFalse h => isFalse (fun he => h (by cases he; rfl))

end

instance : DecidableEq Obj := Obj.decEq

/-- A Python value flowing through `to_pickle` / `from_pickle`. -/
inductive Value where
  | str (s : String)
  | int (n : Int)
  | float (q : Rat)
  | bool (b : Bool)
  | none
  | tuple (items : List Value)
  | list (items : List Value)
  | dict (items : List (Value × Value))
  | obj (o : Obj)

mutual

def Value.decEq : (a b : Value) → Decidable (a = b)
  | .str a, .str b =>
    if h : a = b then isTrue (by rw [h]) else isFalse (fun he => h (by cases he; rfl))
  | .int a, .int b =>
    if h : a = b then isTrue (by rw [h]) else isFalse (fun he => h (by cases he; rfl))
  | .float a, .float b =>
    if h : a = b then isTrue (by rw [h]) else isFalse (fun he => h (by cases he; rfl))
  | .bool a, .bool b =>
    if h : a = b then isTrue (by rw [h]) else isFalse (fun he => h (by cases he; rfl))
  | .none, .none => isTrue rfl
  | .tuple a, .tuple b =>
    match Value.decEqList a b with
    | isTrue h => isTrue (by rw [h])
    | isFalse h => isFalse (fun he => h (by cases he; rfl))
  | .list a, .list b =>
    match Value.decEqList a b with
    | isTrue h => isTrue (by rw [h])
    | isFalse h => isFalse (fun he => h (by cases he; rfl))
  | .dict a, .dict b =>
    match Value.decEqPairs a b with
    | isTrue h => isTrue (by rw [h])
    | isFalse h => isFalse (fun he => h (by cases he; rfl))
  | .obj a, .obj b =>
    if h : a = b then isTrue (by rw [h]) else isFalse (fun he => h (by cases he; rfl))
  | .str _, .int _ => isFalse (fun he => by cases he)
  | .str _, .float _ => isFalse (fun he => by cases he)
  | .str _, .bool _ => isFalse (fun he => by cases he)
  | .str _, .none => isFalse (fun he => by cases he)
  | .str _, .tuple _ => isFalse (fun he => by cases he)
  | .str _, .list _ => isFalse (fun he => by cases he)
  | .str _, .dict _ => isFalse (fun he => by cases he)
  | .str _, .obj _ => isFalse (fun he => by cases he)
  | .int _, .str _ => isFalse (fun he => by cases he)
  | .int _, .float _ => isFalse (fun he => by cases he)
  | .int _, .bool _ => isFalse (fun he => by cases he)
  | .int _, .none => isFalse (fun he => by cases he)
  | .int _, .tuple _ => isFalse (fun he => by cases he)
  | .int _, .list _ => isFalse (fun he => by cases he)
  | .int _, .dict _ => isFalse (fun he => by cases he)
  | .int _, .obj _ => isFalse (fun he => by cases he)
  | .float _, .str _ => isFalse (fun he => by cases he)
  | .float _, .int _ => isFalse (fun he => by cases he)
  | .float _, .bool _ => isFalse (fun he => by cases he)
  | .float _, .none => isFalse (fun he => by cases he)
  | .float _, .tuple _ => isFalse (fun he => by cases he)
  | .float _, .list _ => isFalse (fun he => by cases he)
  | .float _, .dict _ => isFalse (fun he => by cases he)
  | .float _, .obj _ => isFalse (fun he => by cases he)
  | .bool _, .str _ => isFalse (fun he => by cases he)
  | .bool _, .int _ => isFalse (fun he => by cases he)
  | .bool _, .float _ => isFalse (fun he => by cases he)
  | .bool _, .none => isFalse (fun he => by cases he)
  | .bool _, .tuple _ => isFalse (fun he => by cases he)
  | .bool _, .list _ => isFalse (fun he => by cases he)
  | .bool _, .dict _ => isFalse (fun he => by cases he)
  | .bool _, .obj _ => isFalse (fun he => by cases he)
  | .none, .str _ => isFalse (fun he => by cases he)
  | .none, .int _ => isFalse (fun he => by cases he)
  | .none, .float _ => isFalse (fun he => by cases he)
  | .none, .bool _ => isFalse (fun he => by cases he)
  | .none, .tuple _ => isFalse (fun he => by cases he)
  | .none, .list _ => isFalse (fun he => by cases he)
  | .none, .dict _ => isFalse (fun he => by cases he)
  | .none, .obj _ => isFalse (fun he => by cases he)
  | .tuple _, .str _ => isFalse (fun he => by cases he)
  | .tuple _, .int _ => isFalse (fun he => by cases he)
  | .tuple _, .float _ => isFalse (fun he => by cases he)
  | .tuple _, .bool _ => isFalse (fun he => by cases he)
  | .tuple _, .none => isFalse (fun he => by cases he)
  | .tuple _, .list _ => isFalse (fun he => by cases he)
  | .tuple _, .dict _ => isFalse (fun he => by cases he)
  | .tuple _, .obj _ => isFalse (fun he => by cases he)
  | .list _, .str _ => isFalse (fun he => by cases he)
  | .list _, .int _ => isFalse (fun he => by cases he)
  | .list _, .float _ => isFalse (fun he => by cases he)
  | .list _, .bool _ => isFalse (fun he => by cases he)
  | .list _, .none => isFalse (fun he => by cases he)
  | .list _, .tuple _ => isFalse (fun he => by cases he)
  | .list _, .dict _ => isFalse (fun he => by cases he)
  | .list _, .obj _ => isFalse (fun he => by cases he)
  | .dict _, .str _ => isFalse (fun he => by cases he)
  | .dict _, .int _ => isFalse (fun he => by cases he)
  | .dict _, .float _ => isFalse (fun he => by cases he)
  | .dict _, .bool _ => isFalse (fun he => by cases he)
  | .dict _, .none => isFalse (fun he => by cases he)
  | .dict _, .tuple _ => isFalse (fun he => by cases he)
  | .dict _, .list _ => isFalse (fun he => by cases he)
  | .dict _, .obj _ => isFalse (fun he => by cases he)
  | .obj _, .str _ => isFalse (fun he => by cases he)
  | .obj _, .int _ => isFalse (fun he => by cases he)
  | .obj _, .float _ => isFalse (fun he => by cases he)
  | .obj _, .bool _ => isFalse (fun he => by cases he)
  | .obj _, .none => isFalse (fun he => by cases he)
  | .obj _, .tuple _ => isFalse (fun he => by cases he)
  | .obj _, .list _ => isFalse (fun he => by cases he)
  | .obj _, .dict _ => isFalse (fun he => by cases he)

def Value.decEqList : (a b : List Value) → Decidable (a = b)
  | [], [] => isTrue rfl
  | [], _ :: _ => isFalse (fun he => by cases he)
  | _ :: _, [] => isFalse (fun he => by cases he)
  | a :: as, b :: bs =>
    match Value.decEq a b with
    | isTrue h1 =>
      match Value.decEqList as bs with
      | isTrue h2 => isTrue (by rw [h1, h2])
      | isFalse h2 => isFalse (fun he => h2 (by cases he; rfl))
    | isFalse h1 => isFalse (fun he => h1 (by cases he; rfl))

def Value.decEqPairs : (a b : List (Value × Value)) → Decidable (a = b)
  | [], [] => isTrue rfl
  | [], _ :: _ => isFalse (fun he => by cases he)
  | _ :: _, [] => isFalse (fun he => by cases he)
  | (k1, v1) :: as, (k2, v2) :: bs =>
    match Value.decEq k1 k2 with
    | isTrue hk =>
      match Value.decEq v1 v2 with
      | isTrue hv =>
        match Value.decEqPairs as bs with
        | isTrue h2 => isTrue (by rw [hk, hv, h2])
        | isFalse h2 => isFalse (fun he => h2 (by cases he; rfl))
      | isFalse hv => isFalse (fun he => hv (by cases he; rfl))
    | isFalse hk => isFalse (fun he => hk (by cases he; rfl))

end

instance : DecidableEq Value := Value.decEq

def exceptDecEq {ε α : Type} [DecidableEq ε] [DecidableEq α] :
    (a b : Except ε α) → Decidable (a = b)
  | Except.ok a, Except.ok b =>
    if h : a = b then isTrue (by rw [h]) else isFalse (fun he => h (by cases he; rfl))
  | Except.ok _, Except.error _ => isFalse (fun he => by cases he)
  | Except.error _, Except.ok _ => isFalse (fun he => by cases he)
  | Except.error a, Except.error b =>
    if h : a = b then isTrue (by rw [h]) else isFalse (fun he => h (by cases he; rfl))

instance {ε α : Type} [DecidableEq ε] [DecidableEq α] : DecidableEq (Except ε α) :=
  exceptDecEq

/-- Python truthiness (`bool(v)`): empty strings, zero numbers, `False`,
`None` and empty containers are falsy; model instances are truthy (they
define no `__nonzero__`/`__len__`). -/
def truthy : Value → Bool
  | .str s => s ≠ ""
  | .int n => n ≠ 0
  | .float q => q ≠ 0
  | .bool b => b
  | .none => false
  | .tuple items => items ≠ []
  | .list items => items ≠ []
  | .dict items => items ≠ []
  | .obj _ => true

/-- Python `v == False`: `False` itself and numeric zero compare equal to
`False` (`0 == False` and `0.0 == False` hold in Python 2). -/
def eqPyFalse : Value → Bool
  | .bool b => !b
  | .int n => n = 0
  | .float q => q = 0
  | _ => false

mutual

/-- Python hashability: dicts and lists are unhashable, a tuple is hashable
if all of its elements are; using an unhashable value as a dict key raises
`TypeError`. -/
def hashable : Value → Bool
  | .tuple items => hashableList items
  | .list _ => false
  | .dict _ => false
  | _ => true

def hashableList : List Value → Bool
  | [] => true
  | v :: rest => hashable v && hashableList rest

end

/-- Coercion that Django applies to the value passed as `objects.get(id=...)`:
integers are used as given, booleans as 0/1, integral floats as their
integer part; anything else fails the query with a `ValueError`. -/
def idAsInt : Value → Option Int
  | .int n => Option.some n
  | .bool b => Option.some (if b then 1 else 0)
  | .float q => if q.den = 1 then Option.some q.num else Option.none
  | _ => Option.none

/-- Association-list lookup, modelling a Python dict built by
`dict(generator)`: the table keys are unique, first match is returned. -/
def assocD {α β : Type} [DecidableEq α] : List (α × β) → α → Option β
  | [], _ => Option.none
  | (k, v) :: rest, s => if k = s then Option.some v else assocD rest s

/-- A Django model class as the decoder uses it: its default manager table.
`objects.get(id=n)` is lookup of `n`, raising `DoesNotExist` when absent. -/
structure ModelClass where
  objects : List (Int × Obj)
deriving DecidableEq

/-- The external directory state the two functions build from
`ContentType.objects.all()`: `fromModelMap` models `_FROM_MODEL_MAP`
(lower-case model name to natural key, abstracted to a string) and
`toModelMap` models `_TO_MODEL_MAP` (natural key to model class). Both are
`defaultdict(str)`: a missing key yields the falsy `""`. -/
structure Env where
  fromModelMap : List (String × String)
  toModelMap : List (String × ModelClass)
deriving DecidableEq

/-- Model of Python `str.lower()` as applied in
`item.__class__.__name__.lower()`: lowercase every character. -/
def pyLower (s : String) : String :=
  String.mk (s.data.map Char.toLower)

/-- Source lambda `_TO_DBOBJ = lambda o: (hasattr(o, "dbobj") and o.dbobj) or o`. -/
def TO_DBOBJ (o : Obj) : Obj :=
  match o.dbobj with
  | Option.some d => d
  | Option.none => o

/-- Source lambda `_TO_TYPECLASS = lambda o: (hasattr(o, 'typeclass') and o.typeclass) or o`. -/
def TO_TYPECLASS (o : Obj) : Obj :=
  match o.typeclass with
  | Option.some t => t
  | Option.none => o

/-- Source lambda `_TO_PACKED_DBOBJ = lambda natural_key, dbref: ('__packed_dbobj__', natural_key, dbref)`. -/
def TO_PACKED_DBOBJ (natural_key : String) (dbref : Value) : Value :=
  Value.tuple [Value.str "__packed_dbobj__", Value.str natural_key, dbref]

/-- Source lambda `_IS_PACKED_DBOBJ = lambda o: type(o)==tuple and len(o)==3 and o[0]=='__packed_dbobj__'`. -/
def IS_PACKED_DBOBJ : Value → Bool
  | .tuple [a, _, _] => a = Value.str "__packed_dbobj__"
  | _ => false

/-- Exceptions the encoder can raise: only an `AttributeError` from the
`item.id` access is conceivable (and is in fact unreachable). -/
inductive EncErr where
  | attributeError
deriving DecidableEq

/-- Exceptions the decoder can raise: `DoesNotExist` from `objects.get`,
`AttributeError` from `.objects` on the `""` default of a failed directory
lookup, `TypeError` from indexing the directory with an unhashable key,
`ValueError` from a non-integral id in the query, and an unpickling error
from `pickle.loads` on non-pickle input. -/
inductive DecodeErr where
  | doesNotExist
  | attributeError
  | typeError
  | valueError
  | unpicklingError
deriving DecidableEq

/-- Observable side effects of the decoder: the `transaction.commit()`
consistency barrier, and each `objects.get(id=...)` entity fetch (recorded
with the resolved natural key and the queried id). -/
inductive Event where
  | commit
  | fetch (naturalKey : String) (dbref : Int)
deriving DecidableEq

/-- Encoder worker `iter_db2id` of `to_pickle`, branch for an item that falls
through to the final `else`: the item is replaced by `_TO_DBOBJ(item)`, its
natural key is looked up under
`hasattr(item, "id") and hasattr(item, '__class__') and item.__class__.__name__.lower()`
(the key is the boolean `False` when there is no `id` attribute, and
`defaultdict(str)` then yields `""`), and a packed token is returned when the
natural key is truthy, else the (unwrapped) item itself. -/
def db2idFallback (env : Env) (o : Obj) : Except EncErr Value :=
  let item := TO_DBOBJ o
  let lookupKey : Option String :=
    match item.objId with
    | Option.some _ => Option.some (pyLower item.className)
    | Option.none => Option.none
  let natural_key : String :=
    match lookupKey with
    | Option.some s => (assocD env.fromModelMap s).getD ""
    | Option.none => ""
  if natural_key ≠ "" then
    match item.objId with
    | Option.some i => Except.ok (TO_PACKED_DBOBJ natural_key (Value.int i))
    | Option.none => Except.error EncErr.attributeError
  else
    Except.ok (Value.obj item)

mutual

/-- Encoder worker `iter_db2id` of `to_pickle`: scalars are returned as-is,
tuples, dicts (values only) and other iterables are rebuilt recursively, and
everything else goes through the database-object fallback. Booleans and
`None` reach the fallback too, but have no `dbobj` or `id` attribute and so
come back unchanged. -/
def iter_db2id (env : Env) : Value → Except EncErr Value
  | .str s => Except.ok (Value.str s)
  | .int n => Except.ok (Value.int n)
  | .float q => Except.ok (Value.float q)
  | .tuple items =>
    match db2idList env items with
    | Except.ok items2 => Except.ok (Value.tuple items2)
    | Except.error e => Except.error e
  | .dict items =>
    match db2idPairs env items with
    | Except.ok items2 => Except.ok (Value.dict items2)
    | Except.error e => Except.error e
  | .list items =>
    match db2idList env items with
    | Except.ok items2 => Except.ok (Value.list items2)
    | Except.error e => Except.error e
  | .bool b => Except.ok (Value.bool b)
  | .none => Except.ok Value.none
  | .obj o => db2idFallback env o

/-- Sequential encoding of the elements of a tuple or list
(`tuple(iter_db2id(val) for val in item)` and the list comprehension): the
first exception aborts the traversal. -/
def db2idList (env : Env) : List Value → Except EncErr (List Value)
  | [] => Except.ok []
  | v :: rest =>
    match iter_db2id env v with
    | Except.ok v2 =>
      match db2idList env rest with
      | Except.ok rest2 => Except.ok (v2 :: rest2)
      | Except.error e => Except.error e
    | Except.error e => Except.error e

/-- Sequential encoding of dict items
(`dict((key, iter_db2id(val)) for key, val in item.items())`): keys are left
untouched, values are encoded recursively. -/
def db2idPairs (env : Env) : List (Value × Value) → Except EncErr (List (Value × Value))
  | [] => Except.ok []
  | (k, v) :: rest =>
    match iter_db2id env v with
    | Except.ok v2 =>
      match db2idPairs env rest with
      | Except.ok rest2 => Except.ok ((k, v2) :: rest2)
      | Except.error e => Except.error e
    | Except.error e => Except.error e

end

/-- Decoder branch for a packed dbobj token
(`if item[2]: return _TO_TYPECLASS(_TO_MODEL_MAP[item[1]].objects.get(id=item[2]))`,
`return None`): a falsy id slot yields `None` without touching the database;
otherwise `_TO_MODEL_MAP[item[1]]` is indexed (a `TypeError` for an
unhashable key, the falsy `""` default for an unknown one, whose missing
`.objects` attribute then raises `AttributeError`) and the entity is fetched
by id, unwrapping to its typeclass. -/
def resolvePacked (env : Env) (keyv idv : Value) : List Event × Except DecodeErr Value :=
  if truthy idv then
    if hashable keyv then
      match keyv with
      | Value.str ks =>
        match assocD env.toModelMap ks with
        | Option.some mc =>
          match idAsInt idv with
          | Option.some n =>
            match assocD mc.objects n with
            | Option.some w => ([Event.fetch ks n], Except.ok (Value.obj (TO_TYPECLASS w)))
            | Option.none => ([Event.fetch ks n], Except.error DecodeErr.doesNotExist)
          | Option.none => ([], Except.error DecodeErr.valueError)
        | Option.none => ([], Except.error DecodeErr.attributeError)
      | _ => ([], Except.error DecodeErr.attributeError)
    else ([], Except.error DecodeErr.typeError)
  else ([], Except.ok Value.none)

mutual

/-- Decoder worker `iter_id2db` of `from_pickle`: scalars as-is, then the
packed-dbobj check (before the generic tuple branch, as in the source),
then tuples, dicts (values only) and other iterables rebuilt recursively;
anything else (booleans, `None`, plain objects) is returned unchanged by the
final `return item`. -/
def iter_id2db (env : Env) : Value → List Event × Except DecodeErr Value
  | .str s => ([], Except.ok (Value.str s))
  | .int n => ([], Except.ok (Value.int n))
  | .float q => ([], Except.ok (Value.float q))
  | .tuple [a, keyv, idv] =>
    if a = Value.str "__packed_dbobj__" then
      resolvePacked env keyv idv
    else
      match id2dbList env [a, keyv, idv] with
      | (tr, Except.ok items2) => (tr, Except.ok (Value.tuple items2))
      | (tr, Except.error e) => (tr, Except.error e)
  | .tuple items =>
    match id2dbList env items with
    | (tr, Except.ok items2) => (tr, Except.ok (Value.tuple items2))
    | (tr, Except.error e) => (tr, Except.error e)
  | .dict items =>
    match id2dbPairs env items with
    | (tr, Except.ok items2) => (tr, Except.ok (Value.dict items2))
    | (tr, Except.error e) => (tr, Except.error e)
  | .list items =>
    match id2dbList env items with
    | (tr, Except.ok items2) => (tr, Except.ok (Value.list items2))
    | (tr, Except.error e) => (tr, Except.error e)
  | .bool b => ([], Except.ok (Value.bool b))
  | .none => ([], Except.ok Value.none)
  | .obj o => ([], Except.ok (Value.obj o))

/-- Sequential decoding of the elements of a tuple or list: events accumulate
left to right and the first exception aborts the traversal. -/
def id2dbList (env : Env) : List Value → List Event × Except DecodeErr (List Value)
  | [] => ([], Except.ok [])
  | v :: rest =>
    match iter_id2db env v with
    | (tr, Except.ok v2) =>
      match id2dbList env rest with
      | (tr2, Except.ok rest2) => (tr ++ tr2, Except.ok (v2 :: rest2))
      | (tr2, Except.error e) => (tr ++ tr2, Except.error e)
    | (tr, Except.error e) => (tr, Except.error e)

/-- Sequential decoding of dict items: keys are left untouched, values are
decoded recursively. -/
def id2dbPairs (env : Env) : List (Value × Value) → List Event × Except DecodeErr (List (Value × Value))
  | [] => ([], Except.ok [])
  | (k, v) :: rest =>
    match iter_id2db env v with
    | (tr, Except.ok v2) =>
      match id2dbPairs env rest with
      | (tr2, Except.ok rest2) => (tr ++ tr2, Except.ok ((k, v2) :: rest2))
      | (tr2, Except.error e) => (tr ++ tr2, Except.error e)
    | (tr, Except.error e) => (tr, Except.error e)

end

/-- What `to_pickle` (and `from_pickle` with `do_pickle=True`) exchange: the
structure itself, or its serialized byte form `to_str(pickle.dumps(data))`.
The byte form is kept as a wrapper so that `pickle.loads` is its exact
inverse, which is the serializer contract the module relies on. -/
inductive Wire where
  | plain (v : Value)
  | pickled (v : Value)
deriving DecidableEq

mutual

/-- Rendering of the serialized byte string for the degenerate call
`from_pickle(bytes, do_pickle=False)`, where the Python 2 `str` of pickled
bytes flows through `iter_id2db` as an ordinary string scalar. Only its
stringness matters to the code; the rendering is an arbitrary faithful
spelling of the bytes. -/
def pickleBytes : Value → String
  | .str s => "S(" ++ s ++ ")"
  | .int n => "I(" ++ toString n ++ ")"
  | .float q => "F(" ++ toString q ++ ")"
  | .bool b => "B(" ++ toString b ++ ")"
  | .none => "N"
  | .tuple items => "T(" ++ pickleBytesList items ++ ")"
  | .list items => "L(" ++ pickleBytesList items ++ ")"
  | .dict items => "D(" ++ pickleBytesPairs items ++ ")"
  | .obj o => "O(" ++ pickleBytesObj o ++ ")"

def pickleBytesList : List Value → String
  | [] => ""
  | v :: rest => pickleBytes v ++ ";" ++ pickleBytesList rest

def pickleBytesPairs : List (Value × Value) → String
  | [] => ""
  | (k, v) :: rest => pickleBytes k ++ ":" ++ pickleBytes v ++ ";" ++ pickleBytesPairs rest

def pickleBytesObj : Obj → String
  | .mk c i d t =>
    c ++ "," ++ toString i ++ "," ++ pickleBytesObjOpt d ++ "," ++ pickleBytesObjOpt t

def pickleBytesObjOpt : Option Obj → String
  | Option.none => "-"
  | Option.some o => pickleBytesObj o

end

/-- Source function `to_pickle(data, do_pickle=True, emptypickle=True)`:
run `iter_db2id`, then serialize the result when `do_pickle` holds unless
`not emptypickle and not data and data != False` (so with `emptypickle`
disabled, a falsy result is returned unserialized, except one equal to
`False`, i.e. `False`, `0` or `0.0`, which the code deliberately still
pickles). -/
def to_pickle (env : Env) (data : Value) (do_pickle : Bool := true)
    (emptypickle : Bool := true) : Except EncErr Wire :=
  match iter_db2id env data with
  | Except.error e => Except.error e
  | Except.ok d =>
    if do_pickle && !(!emptypickle && !truthy d && !eqPyFalse d) then
      Except.ok (Wire.pickled d)
    else
      Except.ok (Wire.plain d)

/-- Source function `from_pickle(data, do_pickle=True)`: optionally
`pickle.loads` the input (raising on non-pickle input before anything else
happens), then issue the `transaction.commit()` consistency barrier, then run
`iter_id2db`. The result carries the event trace alongside the value or the
propagated exception. -/
def from_pickle (env : Env) (data : Wire) (do_pickle : Bool := true) :
    List Event × Except DecodeErr Value :=
  match do_pickle, data with
  | true, Wire.plain _ => ([], Except.error DecodeErr.unpicklingError)
  | true, Wire.pickled v =>
    match iter_id2db env v with
    | (tr, r) => (Event.commit :: tr, r)
  | false, Wire.plain v =>
    match iter_id2db env v with
    | (tr, r) => (Event.commit :: tr, r)
  | false, Wire.pickled v => ([Event.commit], Except.ok (Value.str (pickleBytes v)))

mutual

/-- Values built only from primitive scalars (strings, integers, floats,
booleans, `None`), tuples, lists and dicts: no entity references anywhere,
dict keys included. -/
def plainValue : Value → Bool
  | .str _ => true
  | .int _ => true
  | .float _ => true
  | .bool _ => true
  | .none => true
  | .tuple items => plainList items
  | .list items => plainList items
  | .dict items => plainPairs items
  | .obj _ => false

def plainList : List Value → Bool
  | [] => true
  | v :: rest => plainValue v && plainList rest

def plainPairs : List (Value × Value) → Bool
  | [] => true
  | (k, v) :: rest => plainValue k && plainValue v && plainPairs rest

end

mutual

/-- No 3-tuple headed by the `'__packed_dbobj__'` sentinel occurs at any
position the decoder traverses (dict keys are not traversed, so they are
unconstrained). -/
def tokenFree : Value → Bool
  | .tuple items => !IS_PACKED_DBOBJ (Value.tuple items) && tokenFreeList items
  | .list items => tokenFreeList items
  | .dict items => tokenFreePairs items
  | _ => true

def tokenFreeList : List Value → Bool
  | [] => true
  | v :: rest => tokenFree v && tokenFreeList rest

def tokenFreePairs : List (Value × Value) → Bool
  | [] => true
  | (_, v) :: rest => tokenFree v && tokenFreePairs rest

end

/-- Unfolding helper: a 3-tuple headed by the sentinel takes the packed
branch of the decoder, before the generic tuple branch. -/
theorem iter_id2db_packed (env : Env) (keyv idv : Value) :
    iter_id2db env (Value.tuple [Value.str "__packed_dbobj__", keyv, idv]) =
      resolvePacked env keyv idv := by
  simp [iter_id2db]

/-- Unfolding helper: any tuple that is not a packed token is rebuilt through
the generic tuple branch. -/
theorem iter_id2db_tuple_notpacked (env : Env) (items : List Value)
    (h : IS_PACKED_DBOBJ (Value.tuple items) = false) :
    iter_id2db env (Value.tuple items) =
      (match id2dbList env items with
       | (tr, Except.ok items2) => (tr, Except.ok (Value.tuple items2))
       | (tr, Except.error e) => (tr, Except.error e)) := by
  match items with
  | [] => simp [iter_id2db]
  | [a] => simp [iter_id2db]
  | [a, b] => simp [iter_id2db]
  | [a, b, c] =>
    have ha : ¬(a = Value.str "__packed_dbobj__") := by
      simpa [IS_PACKED_DBOBJ] using h
    simp [iter_id2db, ha]
  | a :: b :: c :: d :: rest => simp [iter_id2db]

mutual

/-- The encoder is the identity on plain values: nothing reaches the
database-object fallback. -/
theorem db2id_plain (env : Env) : (v : Value) → plainValue v = true →
    iter_db2id env v = Except.ok v
  | .str s, _ => by simp [iter_db2id]
  | .int n, _ => by simp [iter_db2id]
  | .float q, _ => by simp [iter_db2id]
  | .bool b, _ => by simp [iter_db2id]
  | .none, _ => by simp [iter_db2id]
  | .tuple items, h => by
    have h2 := db2idList_plain env items (by simpa [plainValue] using h)
    simp [iter_db2id, h2]
  | .list items, h => by
    have h2 := db2idList_plain env items (by simpa [plainValue] using h)
    simp [iter_db2id, h2]
  | .dict items, h => by
    have h2 := db2idPairs_plain env items (by simpa [plainValue] using h)
    simp [iter_db2id, h2]
  | .obj o, h => by simp [plainValue] at h

theorem db2idList_plain (env : Env) : (items : List Value) → plainList items = true →
    db2idList env items = Except.ok items
  | [], _ => by simp [db2idList]
  | v :: rest, h => by
    have hv : plainValue v = true := by
      have := h; simp [plainList] at this; exact this.1
    have hr : plainList rest = true := by
      have := h; simp [plainList] at this; exact this.2
    have h1 := db2id_plain env v hv
    have h2 := db2idList_plain env rest hr
    simp [db2idList, h1, h2]

theorem db2idPairs_plain (env : Env) : (items : List (Value × Value)) → plainPairs items = true →
    db2idPairs env items = Except.ok items
  | [], _ => by simp [db2idPairs]
  | (k, v) :: rest, h => by
    have hv : plainValue v = true := by
      have := h; simp [plainPairs] at this; exact this.1.2
    have hr : plainPairs rest = true := by
      have := h; simp [plainPairs] at this; exact this.2
    have h1 := db2id_plain env v hv
    have h2 := db2idPairs_plain env rest hr
    simp [db2idPairs, h1, h2]

end

mutual

/-- The decoder is the identity, with no database traffic, on plain values
containing no sentinel-headed 3-tuple at a traversed position. -/
theorem id2db_plain (env : Env) : (v : Value) → plainValue v = true → tokenFree v = true →
    iter_id2db env v = ([], Except.ok v)
  | .str s, _, _ => by simp [iter_id2db]
  | .int n, _, _ => by simp [iter_id2db]
  | .float q, _, _ => by simp [iter_id2db]
  | .bool b, _, _ => by simp [iter_id2db]
  | .none, _, _ => by simp [iter_id2db]
  | .tuple items, h, ht => by
    have hp : IS_PACKED_DBOBJ (Value.tuple items) = false := by
      have := ht; simp [tokenFree] at this; exact this.1
    have h2 := id2dbList_plain env items (by simpa [plainValue] using h)
      (by have := ht; simp [tokenFree] at this; exact this.2)
    rw [iter_id2db_tuple_notpacked env items hp, h2]
  | .list items, h, ht => by
    have h2 := id2dbList_plain env items (by simpa [plainValue] using h)
      (by simpa [tokenFree] using ht)
    simp [iter_id2db, h2]
  | .dict items, h, ht => by
    have h2 := id2dbPairs_plain env items (by simpa [plainValue] using h)
      (by simpa [tokenFree] using ht)
    simp [iter_id2db, h2]
  | .obj o, h, _ => by simp [plainValue] at h

theorem id2dbList_plain (env : Env) : (items : List Value) → plainList items = true →
    tokenFreeList items = true → id2dbList env items = ([], Except.ok items)
  | [], _, _ => by simp [id2dbList]
  | v :: rest, h, ht => by
    have hv : plainValue v = true := by
      have := h; simp [plainList] at this; exact this.1
    have hr : plainList rest = true := by
      have := h; simp [plainList] at this; exact this.2
    have htv : tokenFree v = true := by
      have := ht; simp [tokenFreeList] at this; exact this.1
    have htr : tokenFreeList rest = true := by
      have := ht; simp [tokenFreeList] at this; exact this.2
    have h1 := id2db_plain env v hv htv
    have h2 := id2dbList_plain env rest hr htr
    simp [id2dbList, h1, h2]

theorem id2dbPairs_plain (env : Env) : (items : List (Value × Value)) → plainPairs items = true →
    tokenFreePairs items = true → id2dbPairs env items = ([], Except.ok items)
  | [], _, _ => by simp [id2dbPairs]
  | (k, v) :: rest, h, ht => by
    have hv : plainValue v = true := by
      have := h; simp [plainPairs] at this; exact this.1.2
    have hr : plainPairs rest = true := by
      have := h; simp [plainPairs] at this; exact this.2
    have htv : tokenFree v = true := by
      have := ht; simp [tokenFreePairs] at this; exact this.1
    have htr : tokenFreePairs rest = true := by
      have := ht; simp [tokenFreePairs] at this; exact this.2
    have h1 := id2db_plain env v hv htv
    have h2 := id2dbPairs_plain env rest hr htr
    simp [id2dbPairs, h1, h2]

end

/-- An environment with an empty type-key directory. -/
def env0 : Env := { fromModelMap := [], toModelMap := [] }

/-- C1 counterexample: the 3-tuple `('__packed_dbobj__', 'x', 0)` is composed
only of primitive scalars and a tuple and contains no entity reference, yet
`from_pickle(to_pickle(v, do_pickle=False), do_pickle=False)` returns `None`,
not the tuple: the decoder mistakes it for a Reference Token. -/
theorem roundtrip_fails_on_sentinel_tuple :
    plainValue (Value.tuple [Value.str "__packed_dbobj__", Value.str "x", Value.int 0]) = true ∧
    to_pickle env0 (Value.tuple [Value.str "__packed_dbobj__", Value.str "x", Value.int 0])
        false true
      = Except.ok (Wire.plain (Value.tuple [Value.str "__packed_dbobj__", Value.str "x", Value.int 0])) ∧
    (from_pickle env0
        (Wire.plain (Value.tuple [Value.str "__packed_dbobj__", Value.str "x", Value.int 0])) false).2
      = Except.ok Value.none ∧
    Value.none ≠ Value.tuple [Value.str "__packed_dbobj__", Value.str "x", Value.int 0] := by
  refine ⟨by simp [plainValue, plainList], ?_, ?_, by decide⟩
  · simp [to_pickle, iter_db2id, db2idList]
  · simp [from_pickle, iter_id2db, resolvePacked, truthy]

/-- C1 (amended): for any Value composed only of primitive scalars, ordered
sequences, tuples and mappings (no entity references), in which no traversed
3-tuple starts with the `'__packed_dbobj__'` sentinel, decoding the encoding
with `do_pickle=False` on both sides returns the value unchanged. -/
theorem roundtrip_plain_token_free (env : Env) (v : Value) (ep : Bool)
    (h1 : plainValue v = true) (h2 : tokenFree v = true) :
    to_pickle env v false ep = Except.ok (Wire.plain v) ∧
    (from_pickle env (Wire.plain v) false).2 = Except.ok v := by
  constructor
  · simp [to_pickle, db2id_plain env v h1]
  · simp [from_pickle, id2db_plain env v h1 h2]

/-- C1 witness: the amended round trip evaluated on the concrete nested value
`dict [("a", [1, ("x", 2.0), dict [(2, "y")], False, None])]`. -/
theorem roundtrip_plain_token_free_witness :
    to_pickle env0
        (Value.dict [(Value.str "a",
          Value.list [Value.int 1, Value.tuple [Value.str "x", Value.float 2],
            Value.dict [(Value.int 2, Value.str "y")], Value.bool false, Value.none])])
        false true
      = Except.ok (Wire.plain (Value.dict [(Value.str "a",
          Value.list [Value.int 1, Value.tuple [Value.str "x", Value.float 2],
            Value.dict [(Value.int 2, Value.str "y")], Value.bool false, Value.none])])) ∧
    (from_pickle env0
        (Wire.plain (Value.dict [(Value.str "a",
          Value.list [Value.int 1, Value.tuple [Value.str "x", Value.float 2],
            Value.dict [(Value.int 2, Value.str "y")], Value.bool false, Value.none])])) false).2
      = Except.ok (Value.dict [(Value.str "a",
          Value.list [Value.int 1, Value.tuple [Value.str "x", Value.float 2],
            Value.dict [(Value.int 2, Value.str "y")], Value.bool false, Value.none])]) :=
  roundtrip_plain_token_free env0
    (Value.dict [(Value.str "a",
      Value.list [Value.int 1, Value.tuple [Value.str "x", Value.float 2],
        Value.dict [(Value.int 2, Value.str "y")], Value.bool false, Value.none])])
    true (by decide) (by decide)

/-- A stored entity with primary key 7, used as concrete fixture. -/
def wObj : Obj := Obj.mk "ObjectDB" (Option.some 7) Option.none Option.none

/-- A directory knowing `wObj`'s type under the natural key
`"objects.objectdb"`, whose manager holds `wObj` at id 7. -/
def envW : Env :=
  { fromModelMap := [("objectdb", "objects.objectdb")],
    toModelMap := [("objects.objectdb", { objects := [(7, wObj)] })] }

/-- A stored entity with the falsy primary key 0, and a directory whose
manager does hold it at id 0. -/
def zObj : Obj := Obj.mk "ObjectDB" (Option.some 0) Option.none Option.none

def envZ : Env :=
  { fromModelMap := [("objectdb", "objects.objectdb")],
    toModelMap := [("objects.objectdb", { objects := [(0, zObj)] })] }

/-- C2 counterexample: an entity of a type known to the directory whose
numeric identity is 0 is encoded to the token
`('__packed_dbobj__', 'objects.objectdb', 0)`, and the entity is present in
storage at id 0, yet decoding the token returns `None`, not an entity equal
to the original: the decoder treats the falsy identity as absent. -/
theorem reference_roundtrip_fails_on_zero_id :
    iter_db2id envZ (Value.obj zObj)
      = Except.ok (Value.tuple [Value.str "__packed_dbobj__", Value.str "objects.objectdb", Value.int 0]) ∧
    assocD envZ.toModelMap "objects.objectdb" = Option.some (ModelClass.mk [(0, zObj)]) ∧
    assocD (ModelClass.mk [(0, zObj)]).objects 0 = Option.some zObj ∧
    (iter_id2db envZ
        (Value.tuple [Value.str "__packed_dbobj__", Value.str "objects.objectdb", Value.int 0])).2
      = Except.ok Value.none ∧
    Value.none ≠ Value.obj zObj := by
  decide

/-- C2 (amended): for an entity `e` of a type known to the directory whose
numeric identity `i` is truthy (nonzero), the encoder replaces `e` by the
token `('__packed_dbobj__', key_of(type(e)), i)`, and decoding that token
returns an entity equal to `e`, provided storage still yields `e` (the fetch
at identity `i` returns an object whose typeclass unwrapping is `e`). The
type key is looked up on the `dbobj`-unwrapped object, as the encoder does. -/
theorem reference_roundtrip_nonzero_id (env : Env) (e : Obj) (i : Int) (k : String)
    (mc : ModelClass) (w : Obj)
    (hid : (TO_DBOBJ e).objId = Option.some i)
    (hi : i ≠ 0)
    (hk : assocD env.fromModelMap (pyLower (TO_DBOBJ e).className) = Option.some k)
    (hk0 : k ≠ "")
    (hm : assocD env.toModelMap k = Option.some mc)
    (hw : assocD mc.objects i = Option.some w)
    (htc : TO_TYPECLASS w = e) :
    iter_db2id env (Value.obj e) = Except.ok (TO_PACKED_DBOBJ k (Value.int i)) ∧
    (iter_id2db env (TO_PACKED_DBOBJ k (Value.int i))).2 = Except.ok (Value.obj e) := by
  constructor
  · simp [iter_db2id, db2idFallback, hid, hk, hk0]
  · rw [TO_PACKED_DBOBJ, iter_id2db_packed]
    simp [resolvePacked, truthy, hi, hashable, hm, idAsInt, hw, htc]

/-- C2 witness: the amended reference round trip evaluated on the concrete
entity `wObj` (id 7) in the directory `envW`. -/
theorem reference_roundtrip_nonzero_id_witness :
    iter_db2id envW (Value.obj wObj)
      = Except.ok (TO_PACKED_DBOBJ "objects.objectdb" (Value.int 7)) ∧
    (iter_id2db envW (TO_PACKED_DBOBJ "objects.objectdb" (Value.int 7))).2
      = Except.ok (Value.obj wObj) :=
  reference_roundtrip_nonzero_id envW wObj 7 "objects.objectdb"
    { objects := [(7, wObj)] } wObj
    (by decide) (by decide) (by decide) (by decide) (by decide) (by decide) (by decide)

/-- C3: decoding a Reference Token with a truthy identity whose entity is no
longer in storage raises `DoesNotExist`, which propagates uncaught through
`from_pickle` (in both pickled and unpickled modes): the decoder neither
returns `None` nor passes the token through. -/
theorem stale_reference_raises (env : Env) (k : String) (i : Int) (mc : ModelClass)
    (hi : i ≠ 0)
    (hm : assocD env.toModelMap k = Option.some mc)
    (hw : assocD mc.objects i = Option.none) :
    (iter_id2db env (TO_PACKED_DBOBJ k (Value.int i))).2 = Except.error DecodeErr.doesNotExist ∧
    (from_pickle env (Wire.plain (TO_PACKED_DBOBJ k (Value.int i))) false).2
      = Except.error DecodeErr.doesNotExist ∧
    (from_pickle env (Wire.pickled (TO_PACKED_DBOBJ k (Value.int i))) true).2
      = Except.error DecodeErr.doesNotExist := by
  have hcore : (iter_id2db env (TO_PACKED_DBOBJ k (Value.int i))).2
      = Except.error DecodeErr.doesNotExist := by
    rw [TO_PACKED_DBOBJ, iter_id2db_packed]
    simp [resolvePacked, truthy, hi, hashable, hm, idAsInt, hw]
  refine ⟨hcore, ?_, ?_⟩
  · simp [from_pickle]
    cases hit : iter_id2db env (TO_PACKED_DBOBJ k (Value.int i)) with
    | mk tr r => rw [hit] at hcore; simpa using hcore
  · simp [from_pickle]
    cases hit : iter_id2db env (TO_PACKED_DBOBJ k (Value.int i)) with
    | mk tr r => rw [hit] at hcore; simpa using hcore

/-- C3 witness: the stale-reference behavior evaluated in `envW`, whose
manager holds no entity at id 9. -/
theorem stale_reference_raises_witness :
    (iter_id2db envW (TO_PACKED_DBOBJ "objects.objectdb" (Value.int 9))).2
      = Except.error DecodeErr.doesNotExist ∧
    (from_pickle envW (Wire.plain (TO_PACKED_DBOBJ "objects.objectdb" (Value.int 9))) false).2
      = Except.error DecodeErr.doesNotExist ∧
    (from_pickle envW (Wire.pickled (TO_PACKED_DBOBJ "objects.objectdb" (Value.int 9))) true).2
      = Except.error DecodeErr.doesNotExist :=
  stale_reference_raises envW "objects.objectdb" 9 { objects := [(7, wObj)] }
    (by decide) (by decide) (by decide)

/-- C6: a Reference Token whose identity slot is falsy decodes to `None`,
with no exception and an empty event trace: no entity fetch is performed. -/
theorem falsy_id_decodes_to_none (env : Env) (k idv : Value)
    (h : truthy idv = false) :
    iter_id2db env (Value.tuple [Value.str "__packed_dbobj__", k, idv])
      = ([], Except.ok Value.none) := by
  rw [iter_id2db_packed]
  simp [resolvePacked, h]

/-- C6 witness: the falsy-identity decode evaluated on the token
`('__packed_dbobj__', 'anykey', 0)` in the empty directory. -/
theorem falsy_id_decodes_to_none_witness :
    iter_id2db env0 (Value.tuple [Value.str "__packed_dbobj__", Value.str "anykey", Value.int 0])
      = ([], Except.ok Value.none) :=
  falsy_id_decodes_to_none env0 (Value.str "anykey") (Value.int 0) (by decide)

/-- C5: a 3-tuple headed by the sentinel is classified as a Reference Token
(ahead of the generic tuple branch): whenever decoding it succeeds, the
result is `None` or a live entity, never a rebuilt ordinary tuple. -/
theorem sentinel_tuple_never_rebuilt (env : Env) (a b out : Value)
    (h : (iter_id2db env (Value.tuple [Value.str "__packed_dbobj__", a, b])).2 = Except.ok out) :
    out = Value.none ∨ ∃ o : Obj, out = Value.obj o := by
  rw [iter_id2db_packed] at h
  unfold resolvePacked at h
  repeat' split at h
  all_goals simp at h
  · right; exact ⟨_, h.symm⟩
  · left; exact h.symm

/-- C5 witness: the characterization applied to the concrete token
`('__packed_dbobj__', 'x', 0)`, which decodes successfully to `None`. -/
theorem sentinel_tuple_never_rebuilt_witness :
    Value.none = Value.none ∨ ∃ o : Obj, Value.none = Value.obj o :=
  sentinel_tuple_never_rebuilt env0 (Value.str "x") (Value.int 0) Value.none (by decide)

/-- C4 counterexample: a proxy object wrapping (via its `dbobj` attribute) an
entity whose type has no directory entry is not returned unchanged by the
encoder: the encoder returns the unwrapped `dbobj`, not the original value
(the fallback reassigns `item = _TO_DBOBJ(item)` before the lookup and
returns that). -/
theorem unknown_type_unwraps_dbobj_proxy :
    iter_db2id env0
        (Value.obj (Obj.mk "Wrapper" Option.none
          (Option.some (Obj.mk "Weird" (Option.some 3) Option.none Option.none)) Option.none))
      = Except.ok (Value.obj (Obj.mk "Weird" (Option.some 3) Option.none Option.none)) ∧
    Value.obj (Obj.mk "Weird" (Option.some 3) Option.none Option.none)
      ≠ Value.obj (Obj.mk "Wrapper" Option.none
          (Option.some (Obj.mk "Weird" (Option.some 3) Option.none Option.none)) Option.none) := by
  decide

/-- C4 (amended): for a value in the encoder fallback whose (`dbobj`-unwrapped)
type has no truthy key in the directory, encoding returns the value unchanged
except that a proxy is unwrapped to its underlying `dbobj`; no token is
emitted and no error is raised, and decoding the encoded result returns it
unchanged with no database traffic. -/
theorem unknown_type_pass_through_unwrapped (env : Env) (o : Obj)
    (hk : (assocD env.fromModelMap (pyLower (TO_DBOBJ o).className)).getD "" = "") :
    iter_db2id env (Value.obj o) = Except.ok (Value.obj (TO_DBOBJ o)) ∧
    iter_id2db env (Value.obj (TO_DBOBJ o)) = ([], Except.ok (Value.obj (TO_DBOBJ o))) := by
  constructor
  · simp only [iter_db2id]
    unfold db2idFallback
    cases hid : (TO_DBOBJ o).objId with
    | none => simp [hid]
    | some i => simp [hid, hk]
  · simp [iter_id2db]

/-- C4 witness: the amended pass-through evaluated on a concrete unknown-type
object without a proxy, in the empty directory. -/
theorem unknown_type_pass_through_unwrapped_witness :
    iter_db2id env0 (Value.obj (Obj.mk "Weird" (Option.some 3) Option.none Option.none))
      = Except.ok (Value.obj (TO_DBOBJ (Obj.mk "Weird" (Option.some 3) Option.none Option.none))) ∧
    iter_id2db env0 (Value.obj (TO_DBOBJ (Obj.mk "Weird" (Option.some 3) Option.none Option.none)))
      = ([], Except.ok (Value.obj (TO_DBOBJ (Obj.mk "Weird" (Option.some 3) Option.none Option.none)))) :=
  unknown_type_pass_through_unwrapped env0
    (Obj.mk "Weird" (Option.some 3) Option.none Option.none) (by decide)

/-- C7 counterexample: with serialization requested and `emptypickle`
disabled, the falsy result `False` is nevertheless serialized (the
`data != False` guard exempts it), contradicting the claim that every falsy
result is returned directly. -/
theorem emptypickle_disabled_still_pickles_false :
    to_pickle env0 (Value.bool false) true false = Except.ok (Wire.pickled (Value.bool false)) ∧
    Except.ok (Wire.pickled (Value.bool false))
      ≠ (Except.ok (Wire.plain (Value.bool false)) : Except EncErr Wire) := by
  decide

/-- C7 (amended): with `do_pickle` true and `emptypickle` disabled, a falsy
encoded result is returned unserialized unless it compares equal to `False`
(`False`, `0`, `0.0`), which the code deliberately still serializes
(`data != False`); with `emptypickle` enabled, or a truthy result, the result
is always serialized. -/
theorem emptypickle_behavior (env : Env) (data d : Value)
    (henc : iter_db2id env data = Except.ok d) :
    to_pickle env data true true = Except.ok (Wire.pickled d) ∧
    (truthy d = false → eqPyFalse d = false → to_pickle env data true false
      = Except.ok (Wire.plain d)) ∧
    (eqPyFalse d = true → to_pickle env data true false = Except.ok (Wire.pickled d)) ∧
    (truthy d = true → to_pickle env data true false = Except.ok (Wire.pickled d)) := by
  refine ⟨?_, ?_, ?_, ?_⟩
  · simp [to_pickle, henc]
  · intro h1 h2; simp [to_pickle, henc, h1, h2]
  · intro h2; simp [to_pickle, henc, h2]
  · intro h1; simp [to_pickle, henc, h1]

/-- C7 witness: the amended serialization condition evaluated at the falsy,
not-equal-to-False value `None`, which is returned unserialized when
`emptypickle` is disabled. -/
theorem emptypickle_behavior_witness :
    to_pickle env0 Value.none true false = Except.ok (Wire.plain Value.none) :=
  (emptypickle_behavior env0 Value.none Value.none (by decide)).2.1 (by decide) (by decide)

/-- C8: in every invocation of `from_pickle`, any entity fetch in the event
trace is preceded by the `transaction.commit()` consistency barrier: no
lookup ever happens before the commit. -/
theorem commit_precedes_fetch (env : Env) (data : Wire) (dp : Bool) (i : Nat)
    (k : String) (n : Int)
    (h : ((from_pickle env data dp).1).get? i = Option.some (Event.fetch k n)) :
    ∃ j, j < i ∧ ((from_pickle env data dp).1).get? j = Option.some Event.commit := by
  match dp, data with
  | true, Wire.plain v => simp [from_pickle] at h
  | true, Wire.pickled v =>
    have h1 : (from_pickle env (Wire.pickled v) true).1
        = Event.commit :: (iter_id2db env v).1 := rfl
    rw [h1] at h
    match i with
    | 0 => simp at h
    | i + 1 => exact ⟨0, Nat.succ_pos i, rfl⟩
  | false, Wire.plain v =>
    have h1 : (from_pickle env (Wire.plain v) false).1
        = Event.commit :: (iter_id2db env v).1 := rfl
    rw [h1] at h
    match i with
    | 0 => simp at h
    | i + 1 => exact ⟨0, Nat.succ_pos i, rfl⟩
  | false, Wire.pickled v =>
    match i with
    | 0 => simp [from_pickle] at h
    | i + 1 => simp [from_pickle] at h

/-- C8 witness: the barrier ordering applied to a concrete decode whose trace
is `[commit, fetch "objects.objectdb" 7]`, at the fetch position 1. -/
theorem commit_precedes_fetch_witness :
    ∃ j, j < 1 ∧
      ((from_pickle envW (Wire.plain (TO_PACKED_DBOBJ "objects.objectdb" (Value.int 7)))
          false).1).get? j = Option.some Event.commit :=
  commit_precedes_fetch envW (Wire.plain (TO_PACKED_DBOBJ "objects.objectdb" (Value.int 7)))
    false 1 "objects.objectdb" 7 (by decide)

/-- Helper for C9: a successful run of the dict-item decoder relates input and
output items pairwise: the key is copied verbatim and the value is the
decoded input value. -/
theorem id2dbPairs_ok (env : Env) :
    (kvs : List (Value × Value)) → (tr : List Event) → (kvs2 : List (Value × Value)) →
    id2dbPairs env kvs = (tr, Except.ok kvs2) →
    List.Forall₂ (fun a b => a.1 = b.1 ∧ (iter_id2db env a.2).2 = Except.ok b.2) kvs kvs2
  | [], tr, kvs2, h => by
    rw [id2dbPairs] at h
    have h2 : Except.ok ([] : List (Value × Value)) = Except.ok kvs2 := congrArg Prod.snd h
    cases h2
    exact List.Forall₂.nil
  | (k, v) :: rest, tr, kvs2, h => by
    rw [id2dbPairs] at h
    cases hv : iter_id2db env v with
    | mk tr1 r1 =>
      rw [hv] at h
      cases r1 with
      | error e => simp at h
      | ok v2 =>
        cases hr : id2dbPairs env rest with
        | mk tr2 r2 =>
          rw [hr] at h
          cases r2 with
          | error e => simp at h
          | ok rest2 =>
            have h2 : Except.ok ((k, v2) :: rest2) = Except.ok kvs2 := congrArg Prod.snd h
            cases h2
            exact List.Forall₂.cons
              ⟨rfl, by rw [hv]⟩
              (id2dbPairs_ok env rest tr2 rest2 (by rw [hr]))

/-- C9: a successfully decoded mapping has exactly the keys of the input
mapping, in order and untouched (only values are decoded); in particular a
Reference Token used as a key is never resolved. -/
theorem decoder_preserves_dict_keys (env : Env) (kvs : List (Value × Value)) (out : Value)
    (h : (iter_id2db env (Value.dict kvs)).2 = Except.ok out) :
    ∃ kvs2, out = Value.dict kvs2 ∧
      List.Forall₂ (fun a b => a.1 = b.1 ∧ (iter_id2db env a.2).2 = Except.ok b.2) kvs kvs2 := by
  rw [show iter_id2db env (Value.dict kvs)
      = (match id2dbPairs env kvs with
         | (tr, Except.ok items2) => (tr, Except.ok (Value.dict items2))
         | (tr, Except.error e) => (tr, Except.error e)) from by simp [iter_id2db]] at h
  cases hp : id2dbPairs env kvs with
  | mk tr r =>
    rw [hp] at h
    cases r with
    | error e => simp at h
    | ok kvs2 =>
      simp at h
      exact ⟨kvs2, h.symm, id2dbPairs_ok env kvs tr kvs2 hp⟩

/-- C9 witness: a dict whose single key is itself a resolvable Reference
Token decodes with that key untouched (and the value decoded). -/
theorem decoder_preserves_dict_keys_witness :
    ∃ kvs2,
      Value.dict [(TO_PACKED_DBOBJ "objects.objectdb" (Value.int 7), Value.int 1)]
        = Value.dict kvs2 ∧
      List.Forall₂ (fun a b => a.1 = b.1 ∧ (iter_id2db envW a.2).2 = Except.ok b.2)
        [(TO_PACKED_DBOBJ "objects.objectdb" (Value.int 7), Value.int 1)] kvs2 :=
  decoder_preserves_dict_keys envW
    [(TO_PACKED_DBOBJ "objects.objectdb" (Value.int 7), Value.int 1)]
    (Value.dict [(TO_PACKED_DBOBJ "objects.objectdb" (Value.int 7), Value.int 1)])
    (by decide)

/-- C10: an object reaching the encoder fallback with no `id` attribute on
itself or on its unwrapped proxy never raises: the directory is indexed with
the boolean `False`, the `defaultdict(str)` default `""` is falsy, `item.id`
is never read, and the (unwrapped) object is returned with no token
emitted. -/
theorem fallback_no_id_never_raises (env : Env) (o : Obj)
    (_h1 : o.objId = Option.none) (h2 : (TO_DBOBJ o).objId = Option.none) :
    iter_db2id env (Value.obj o) = Except.ok (Value.obj (TO_DBOBJ o)) := by
  simp only [iter_db2id]
  unfold db2idFallback
  simp [h2]

/-- C10 witness: the no-id fallback evaluated on a concrete attribute-less
object in the empty directory. -/
theorem fallback_no_id_never_raises_witness :
    iter_db2id env0 (Value.obj (Obj.mk "Session" Option.none Option.none Option.none))
      = Except.ok (Value.obj (TO_DBOBJ (Obj.mk "Session" Option.none Option.none Option.none))) :=
  fallback_no_id_never_raises env0 (Obj.mk "Session" Option.none Option.none Option.none)
    (by decide) (by decide)
